import Mathlib

/-!
Shallow embedding of the `azure-boards-query` service (src/function_app.py):
the WIQL query builder, the work-item fetcher with its 199-sized batching,
the field projector / HTML text normalizer, and the response handling of the
work-item creation endpoint.  Remote calls (Azure DevOps SDK, REST) are
modelled by explicit inputs describing their outcome; everything the Python
module computes itself is translated definition by definition.
-/

namespace AzureBoardsQuery

/-- A single-quote character (code point 39), used to build WIQL string
literals exactly as the Python f-strings do. -/
def squoteChar : Char := Char.ofNat 39

/-- A backslash character (code point 92). -/
def bslashChar : Char := Char.ofNat 92

/-- The one-character string containing a single quote. -/
def squote : String := String.singleton squoteChar

/-- Wraps a string in single quotes; models the Python pattern
f-string of quote, value, quote used throughout `build_query`. -/
def quot1 (s : String) : String := squote ++ s ++ squote

/-- Models the value space of a Python work-item field as returned by the
remote service: strings, integers, booleans or None.  Floats do not occur in
any claim and are omitted from the model. -/
inductive PyValue where
  | str (s : String)
  | int (n : Int)
  | bool (b : Bool)
  | none
deriving DecidableEq

/-- Python truthiness for the modelled values: empty string, zero, False and
None are falsy. -/
def pyTruthy : PyValue → Bool
  | PyValue.str s => !(s == "")
  | PyValue.int n => !(n == 0)
  | PyValue.bool b => b
  | PyValue.none => false

/-- Models Python str() on the modelled values. -/
def pyStr : PyValue → String
  | PyValue.str s => s
  | PyValue.int n => toString n
  | PyValue.bool b => if b then "True" else "False"
  | PyValue.none => "None"

/-- Python truthiness of the optional raw `query` argument of `build_query`:
`if not query` is taken both for None and for the empty string. -/
def pyFalsyOptStr : Option String → Bool
  | Option.none => true
  | Option.some s => s == ""

/-- Lexicographic code-point comparison of character lists: the order Python
uses when comparing strings. -/
def strLeChars : List Char → List Char → Bool
  | [], _ => true
  | _ :: _, [] => false
  | a :: as, b :: bs => if a < b then true else if a = b then strLeChars as bs else false

/-- Python string comparison a <= b (lexicographic by code point). -/
def strLe (a b : String) : Bool := strLeChars a.data b.data

/-- Inserts a string into an already sorted list, keeping ascending order. -/
def insertSorted (x : String) : List String → List String
  | [] => [x]
  | y :: ys => if strLe x y then x :: y :: ys else y :: insertSorted x ys

/-- Models Python sorted(...) on a list of strings: an ascending stable sort
by code-point order (realised here as insertion sort). -/
def pySorted (l : List String) : List String := l.foldr insertSorted []

/-- Models the `.replace(chr(39), chr(92) ++ chr(39))` escaping applied to
area-path values in `build_query` (line 215/219 of src/function_app.py). -/
def replaceQuoteChars : List Char → List Char
  | [] => []
  | c :: rest =>
      if c = squoteChar then bslashChar :: squoteChar :: replaceQuoteChars rest
      else c :: replaceQuoteChars rest

/-- String form of `replaceQuoteChars`. -/
def escape_quotes (s : String) : String := String.mk (replaceQuoteChars s.data)

/-- The configuration object built per request (class AzureDevOpsConfig). -/
structure AzureDevOpsConfig where
  base_url : String
  organization : String
  team : String
  project : String
  personal_access_token : String
  top : Nat
deriving DecidableEq

/-- The structured query parameters (class WIQLQueryParams).  The Python
dict-valued fields (`value_filters`, `keyword_filters`, `allowed_fields`) are
modelled as association lists in insertion order with pairwise distinct keys;
`allowed_fields` maps a field name to its display title (the `name` entry of
the Python value always repeats the key and is dropped). -/
structure WIQLQueryParams where
  days_back : Int
  excluded_states : List String
  area_paths : List String
  value_filters : List (String × List String)
  keyword_filters : List (String × String)
  query : Option String
  allowed_fields : List (String × String)
deriving DecidableEq

/-- The module-level `allowed_fields_default` dict (field name, title). -/
def allowed_fields_default : List (String × String) :=
  [ ("System.Id", "ID"),
    ("System.WorkItemType", "Work Item Type"),
    ("System.Title", "Title"),
    ("System.State", "State"),
    ("Microsoft.VSTS.Scheduling.Effort", "Effort"),
    ("Microsoft.VSTS.Common.BusinessValue", "Business Value"),
    ("Microsoft.VSTS.Common.ValueArea", "Qual o problema ou dor do cliente a ser resolvido"),
    ("System.Tags", "Tags"),
    ("System.Description", "Description"),
    ("Custom.TipodeIniciativa", "Tipo de Iniciativa"),
    ("Custom.05912272-678c-4f26-8aa7-72eba9b2a56a", "Projeto Estratégico"),
    ("Custom.MetaEloassociada", "Meta Elo associada"),
    ("Custom.MetaEloAssociada2", "Meta Elo Associada 2"),
    ("Custom.Metadiretoriaassociada", "Meta diretoria associada"),
    ("Custom.GanhoQuantitativo", "Ganho Quantitativo") ]

/-- The fallback list of closed-like states (line 198). -/
def default_excluded_states : List String :=
  ["Completed", "Canceled", "Done", "Closed", "Resolved"]

/-- The fallback list of area paths (lines 206-213); assigned to a local that
the rest of the function never reads. -/
def default_area_paths : List String :=
  [ "Elo\\Meios de Pagamento e Anti Fraude\\Meios de Pagamento\\Credenciais de Pagamentos",
    "Elo\\Meios de Pagamento e Anti Fraude\\Anti-Fraude\\Compra Online",
    "Elo\\Meios de Pagamento e Anti Fraude\\Anti-Fraude\\Demandas a Prev Fraude",
    "Elo\\Meios de Pagamento e Anti Fraude\\Anti-Fraude\\Transacional",
    "Elo\\Meios de Pagamento e Anti Fraude\\Anti-Fraude\\Validação Cadastral",
    "Elo\\Meios de Pagamento e Anti Fraude\\Anti-Fraude\\Consórcio combate a fraudes" ]

/-- The constant text of WIQL_TEMPLATE before the selected fields. -/
def wiqlPart1 : String := "\nSELECT\n   "

/-- The constant text of WIQL_TEMPLATE between the selected fields and the
team name (ends with the opening quote of the team literal). -/
def wiqlPart2 : String :=
  "\nFROM workitems\nWHERE\n   [System.TeamProject] = " ++ squote

/-- The constant text of WIQL_TEMPLATE between the team name and the
work-item types list. -/
def wiqlPart3a : String :=
  squote ++ "\n   AND [System.WorkItemType] IN ("

/-- The hardcoded state list of the template clause
[System.State] NOT IN (...). -/
def template_excluded_states_text : String :=
  quot1 ("Completed") ++ "," ++ quot1 ("Canceled") ++ "," ++ quot1 ("Done")
    ++ "," ++ quot1 ("Resolved") ++ "," ++ quot1 ("Closed")

/-- The constant text of WIQL_TEMPLATE between the work-item types list and
the extra filters. -/
def wiqlPart3b : String :=
  ")\n   AND [System.State] <> " ++ squote ++ squote
    ++ "\n   AND [System.CreatedDate] >= @Today - 30"
    ++ "\n   AND [System.State] NOT IN (" ++ template_excluded_states_text ++ ")"
    ++ "\n   "

/-- The constant text of WIQL_TEMPLATE after the extra filters. -/
def wiqlPart4 : String := "\nORDER BY\n   [System.ChangedDate] DESC\n"

/-- The middle of the instantiated template: everything strictly between the
team literal and the extra filters (it contains the work-item type list and
the fixed WHERE constraints). -/
def wiql_mid (workitem_types : String) : String :=
  wiqlPart3a ++ workitem_types ++ wiqlPart3b

/-- WIQL_TEMPLATE.format(...): the template string of lines 43-56 with the
four placeholders substituted. -/
def WIQL_TEMPLATE_format (selected_fields workitem_types extra_filters team : String) : String :=
  (wiqlPart1 ++ selected_fields ++ wiqlPart2 ++ team)
    ++ wiql_mid workitem_types
    ++ (extra_filters ++ wiqlPart4)

/-- The value-filter clauses of `build_query` (lines 228-232): one
IN (...) clause per entry with a non-empty value list. -/
def value_filter_clauses (vf : List (String × List String)) : List String :=
  vf.filterMap (fun p =>
    if p.2 = [] then Option.none
    else Option.some ("[" ++ p.1 ++ "] IN ("
      ++ String.intercalate (",") (p.2.map quot1) ++ ")"))

/-- The keyword-filter clauses of `build_query` (lines 234-236). -/
def keyword_filter_clauses (kf : List (String × String)) : List String :=
  kf.map (fun p => "[" ++ p.1 ++ "] CONTAINS " ++ quot1 p.2)

/-- `build_query(params, config, query)` (lines 189-253).  The function
mirrors the source statement by statement, including the two local
assignments that are computed and then never used for the result: the first
`clauses` list (state exclusion and area-path filter) is overwritten by the
empty list at line 227, and the defaulted local `area_paths` is shadowed by
direct reads of `params.area_paths`. -/
def build_query (params : WIQLQueryParams) (config : AzureDevOpsConfig)
    (query : Option String) : String :=
  let team := config.team
  if pyFalsyOptStr query then
    let clauses : List String := []
    let excluded_states :=
      if params.excluded_states = [] then default_excluded_states
      else params.excluded_states
    let clauses :=
      if excluded_states = [] then clauses
      else clauses ++ ["[System.State] NOT IN ("
        ++ String.intercalate (", ") (excluded_states.map quot1) ++ ")"]
    let area_paths :=
      if params.area_paths = [] then default_area_paths else params.area_paths
    let area_path_filter :=
      if params.area_paths.length = 1 then
        "AND ([System.AreaPath] UNDER "
          ++ quot1 (escape_quotes (params.area_paths.headD (""))) ++ ") "
      else
        "AND ( " ++ String.intercalate (" OR ")
          (params.area_paths.map (fun ap =>
            "[System.AreaPath] UNDER " ++ quot1 (escape_quotes ap))) ++ " ) "
    let clauses := clauses ++ [area_path_filter]
    let clauses : List String := []
    let clauses := clauses ++ value_filter_clauses params.value_filters
    let clauses := clauses ++ keyword_filter_clauses params.keyword_filters
    let extra_filters :=
      if clauses = [] then "" else " AND " ++ String.intercalate (" AND ") clauses
    let sorted_fields := pySorted (params.allowed_fields.map Prod.fst)
    let selected_fields := String.intercalate (", ") sorted_fields
    let workitem_types := ["Iniciativa E2E"]
    WIQL_TEMPLATE_format selected_fields
      (String.intercalate (", ") (workitem_types.map quot1))
      extra_filters
      (if team = "" then "Elo" else team)
  else
    query.getD ""

/-- Models Python bytes.decode(of the unicode_escape codec) on the ASCII
strings the claims are about: backslash escape sequences are interpreted and
every other character passes through (line 276; on ASCII input the
intermediate UTF-8 encode is the identity embedding, and the try/except
around the call never fires on such input). -/
def unicodeEscapeChars : List Char → List Char
  | [] => []
  | c :: rest =>
      if c = bslashChar then
        match rest with
        | 'n' :: r => '\n' :: unicodeEscapeChars r
        | 't' :: r => '\t' :: unicodeEscapeChars r
        | 'r' :: r => '\r' :: unicodeEscapeChars r
        | r =>
          match r with
          | d :: r2 => if d = bslashChar then bslashChar :: unicodeEscapeChars r2
                       else c :: d :: unicodeEscapeChars r2
          | [] => [c]
      else c :: unicodeEscapeChars rest

/-- String form of `unicodeEscapeChars`. -/
def unicode_escape_decode (s : String) : String := String.mk (unicodeEscapeChars s.data)

/-- Models html.unescape (and the entity decoding the html.parser applies to
text nodes) for the named entities relevant here. -/
def htmlUnescapeChars : List Char → List Char
  | '&' :: 'a' :: 'm' :: 'p' :: ';' :: rest => '&' :: htmlUnescapeChars rest
  | '&' :: 'l' :: 't' :: ';' :: rest => '<' :: htmlUnescapeChars rest
  | '&' :: 'g' :: 't' :: ';' :: rest => '>' :: htmlUnescapeChars rest
  | '&' :: 'q' :: 'u' :: 'o' :: 't' :: ';' :: rest => '"' :: htmlUnescapeChars rest
  | '&' :: 'n' :: 'b' :: 's' :: 'p' :: ';' :: rest => ' ' :: htmlUnescapeChars rest
  | c :: rest => c :: htmlUnescapeChars rest
  | [] => []

/-- String form of `htmlUnescapeChars`. -/
def py_html_unescape (s : String) : String := String.mk (htmlUnescapeChars s.data)

/-- Splits an HTML fragment into its text segments: a `<`...`>` span is a
tag, everything between tags is text.  The Bool is the inside-a-tag state. -/
def getTextSegments : Bool → List Char → List Char → List (List Char)
  | _, cur, [] => [cur.reverse]
  | true, cur, c :: rest =>
      if c = '>' then getTextSegments false cur rest
      else getTextSegments true cur rest
  | false, cur, c :: rest =>
      if c = '<' then cur.reverse :: getTextSegments true [] rest
      else getTextSegments false (c :: cur) rest

/-- Models BeautifulSoup(value, html.parser).get_text(separator of one
space) on plain markup fragments (line 279-280): tag markup is dropped, the
parser entity-decodes each text node, and the non-empty text nodes are
joined with a single space. -/
def bs4_get_text (s : String) : String :=
  String.intercalate (" ")
    (((getTextSegments false [] s.data).filter (fun seg => !seg.isEmpty)).map
      (fun seg => String.mk (htmlUnescapeChars seg)))

/-- The System.Description cleanup of `build_work_item` (lines 274-280):
best-effort unicode_escape decode, HTML markup stripping with spaces as
separators, then html.unescape on the remaining text.  Non-string values
pass through unchanged (remote description fields are always strings). -/
def decode_description : PyValue → PyValue
  | PyValue.str s =>
      PyValue.str (py_html_unescape (bs4_get_text (unicode_escape_decode s)))
  | v => v

/-- A work-item record as returned by the remote service: its field dict,
modelled as an association list with pairwise distinct keys. -/
structure WorkItem where
  fields : List (String × PyValue)
deriving DecidableEq

/-- The value `build_work_item` appends to `columns` for one field name
(the body of the loop at lines 271-283): a missing or falsy field projects
to the empty string, System.Description is cleaned up, and every other
value is stringified with str(). -/
def work_item_column (work_item : WorkItem) (f : String) : String :=
  match List.lookup f work_item.fields with
  | Option.some v =>
      if pyTruthy v then
        if f = "System.Description" then pyStr (decode_description v) else pyStr v
      else ""
  | Option.none => ""

/-- `build_work_item(work_item, sorted_fields)` (lines 266-285): the loop
over `sorted_fields` collecting one column per field. -/
def build_work_item (work_item : WorkItem) (sorted_fields : List String) : List String :=
  sorted_fields.map (work_item_column work_item)

/-- A work-item reference of the query result (only its id is read). -/
structure WorkItemRef where
  id : Int
deriving DecidableEq

/-- A work-item relation of the query result; `target` is present exactly
when the Python object has a `target` attribute with an `id`. -/
structure WorkItemRelation where
  target : Option WorkItemRef
deriving DecidableEq

/-- The result object of `client.query_by_wiql`: either of the two id
sources may be absent (None) or empty. -/
structure WorkItemQueryResult where
  work_items : Option (List WorkItemRef)
  work_item_relations : Option (List WorkItemRelation)
deriving DecidableEq

/-- The `batch_size = 199` local of `get_work_items` (line 175). -/
def batch_size : Nat := 199

/-- The slices `ids[i:i+batch_size]` for i in range(0, len(ids), batch_size)
(lines 178-179), built front to back. -/
def batch_slices (ids : List Int) : List (List Int) :=
  if ids = [] then []
  else ids.take batch_size :: batch_slices (ids.drop batch_size)
termination_by ids.length
decreasing_by
  simp only [List.length_drop, batch_size]
  have : ids.length ≠ 0 := fun h => (by assumption : ¬ ids = []) (List.eq_nil_of_length_eq_zero h)
  omega

/-- `get_work_items(params, config)` (lines 146-186) after the two remote
calls are abstracted: `queryExec` is the outcome of
`client.query_by_wiql` (an exception or a result object) and `fetchBatch`
is `client.get_work_items(batch_ids, expand=all)`, invoked once per batch
slice.  A raised query is caught and yields the empty list; ids are taken
from `work_items` when present and non-empty, else from the relation
targets; projected rows are kept when non-empty. -/
def get_work_items (params : WIQLQueryParams)
    (queryExec : Except String WorkItemQueryResult)
    (fetchBatch : List Int → List WorkItem) : List (List String) :=
  match queryExec with
  | Except.error _ => []
  | Except.ok result =>
    let ids : Option (List Int) :=
      match result.work_items with
      | Option.some (x :: xs) => Option.some ((x :: xs).map WorkItemRef.id)
      | _ =>
        match result.work_item_relations with
        | Option.some (r :: rs) =>
            Option.some (((r :: rs).filterMap WorkItemRelation.target).map WorkItemRef.id)
        | _ => Option.none
    match ids with
    | Option.none => []
    | Option.some ids =>
      if ids = [] then []
      else
        let sorted_fields := pySorted (params.allowed_fields.map Prod.fst)
        ((batch_slices ids).map (fun batch_ids =>
          ((fetchBatch batch_ids).map (fun wi => build_work_item wi sorted_fields)).filter
            (fun r => !r.isEmpty))).flatten

/-- `req.parameters.allowed_fields or allowed_fields_default` (line 367). -/
def effective_allowed_fields (req_af : List (String × String)) : List (String × String) :=
  if req_af = [] then allowed_fields_default else req_af

/-- `allowed_fields[h]` followed by the title lookup (line 380). -/
def lookup_title (af : List (String × String)) (h : String) : String :=
  (List.lookup h af).getD ""

/-- The pure core of the `/v1/wiql` handler `azure_board_query`
(lines 356-381): parameters are rebuilt with the effective allowed fields
and the environment-supplied excluded states and days-back window, the
work items are fetched, and the response pairs the sorted titles header
with the projected rows. -/
def azure_board_query (req_params : WIQLQueryParams)
    (env_excluded_states : List String) (env_days_back : Int)
    (queryExec : Except String WorkItemQueryResult)
    (fetchBatch : List Int → List WorkItem) : List String × List (List String) :=
  let allowed_fields := effective_allowed_fields req_params.allowed_fields
  let params : WIQLQueryParams :=
    { days_back := env_days_back,
      excluded_states := env_excluded_states,
      area_paths := req_params.area_paths,
      value_filters := req_params.value_filters,
      keyword_filters := req_params.keyword_filters,
      query := req_params.query,
      allowed_fields := allowed_fields }
  let sorted_fields := pySorted (allowed_fields.map Prod.fst)
  let work_items := get_work_items params queryExec fetchBatch
  (sorted_fields.map (lookup_title allowed_fields), work_items)

/-- Models Python getattr(obj, name, dflt) where obj is the dict returned by
response.json(): a dict exposes no attribute named after its keys, so the
call always returns the default (line 474 reads the created id and url this
way, while the log line 454 uses created.get). -/
def dict_getattr (d : List (String × PyValue)) (name : String) (dflt : PyValue) : PyValue :=
  dflt

/-- The response handling of `create_work_item` (lines 449-474) given the
REST status code and the parsed JSON body: a status outside (200, 201)
raises, otherwise the handler returns the pair read with getattr from the
response dict.  The raised message text (which embeds response.text) is
elided. -/
def create_work_item_response (status_code : Nat) (created : List (String × PyValue)) :
    Except String (PyValue × PyValue) :=
  if status_code ≠ 200 ∧ status_code ≠ 201 then
    Except.error ("Failed to create work item")
  else
    Except.ok (dict_getattr created ("id") (PyValue.str ""),
               dict_getattr created ("url") (PyValue.str ""))

/-! Helper notions and lemmas shared by the claim theorems. -/

/-- The string `needle` occurs as a contiguous substring of `hay`. -/
def containsSub (hay needle : String) : Prop := needle.data <:+: hay.data

instance (hay needle : String) : Decidable (containsSub hay needle) :=
  inferInstanceAs (Decidable (needle.data <:+: hay.data))

/-- A substring of the constant middle of the instantiated template is a
substring of the whole query. -/
theorem containsSub_of_mid (sf wt extra team needle : String)
    (h : containsSub (wiql_mid wt) needle) :
    containsSub (WIQL_TEMPLATE_format sf wt extra team) needle := by
  unfold containsSub WIQL_TEMPLATE_format at *
  simp only [String.data_append]
  exact h.trans (List.infix_append _ _ _)

/-- Unfolding equation of `batch_slices`. -/
theorem batch_slices_unfold (ids : List Int) :
    batch_slices ids =
      if ids = [] then []
      else ids.take batch_size :: batch_slices (ids.drop batch_size) := by
  rw [batch_slices]

/-- The slices of a short non-empty list form a single batch. -/
theorem batch_slices_small (ids : List Int) (h1 : ids ≠ []) (h2 : ids.length ≤ batch_size) :
    batch_slices ids = [ids] := by
  rw [batch_slices_unfold, if_neg h1, List.take_of_length_le h2,
    List.drop_eq_nil_of_le h2, batch_slices_unfold]
  simp

/-- Concatenating the slices gives back the id list (fuel-indexed form). -/
theorem batch_slices_flatten_aux :
    ∀ (n : Nat) (ids : List Int), ids.length ≤ n → (batch_slices ids).flatten = ids := by
  intro n
  induction n with
  | zero =>
      intro ids h
      have hnil : ids = [] := List.eq_nil_of_length_eq_zero (Nat.le_zero.mp h)
      rw [hnil, batch_slices_unfold]
      simp
  | succ n ih =>
      intro ids h
      rw [batch_slices_unfold]
      by_cases hid : ids = []
      · simp [hid]
      · simp only [if_neg hid, List.flatten_cons]
        rw [ih (ids.drop batch_size) (by simp only [List.length_drop, batch_size]; omega)]
        exact List.take_append_drop _ _

/-- Every slice has length at most `batch_size` (fuel-indexed form). -/
theorem batch_slices_length_le_aux :
    ∀ (n : Nat) (ids : List Int), ids.length ≤ n →
      ∀ b ∈ batch_slices ids, b.length ≤ batch_size := by
  intro n
  induction n with
  | zero =>
      intro ids h b hb
      have hnil : ids = [] := List.eq_nil_of_length_eq_zero (Nat.le_zero.mp h)
      rw [hnil, batch_slices_unfold] at hb
      simp at hb
  | succ n ih =>
      intro ids h b hb
      rw [batch_slices_unfold] at hb
      by_cases hid : ids = []
      · simp [hid] at hb
      · simp only [if_neg hid, List.mem_cons] at hb
        rcases hb with hb | hb
        · rw [hb]
          simp only [List.length_take]
          exact Nat.min_le_left _ _
        · exact ih (ids.drop batch_size) (by simp only [List.length_drop, batch_size]; omega) b hb

/-- Sample connection configuration (environment defaults of lines 358-365). -/
def sample_config : AzureDevOpsConfig :=
  { base_url := "https://dev.azure.com/", organization := "elobr", team := "Elo",
    project := "Estrategia%20e%20Transformacao", personal_access_token := "", top := 50 }

/-- Concrete parameters with a caller-supplied excluded state. -/
def params_foo_state : WIQLQueryParams :=
  { days_back := 60, excluded_states := ["Foo"], area_paths := [],
    value_filters := [], keyword_filters := [], query := Option.none,
    allowed_fields := [("System.Id", "ID")] }

/-- Concrete parameters with a caller-supplied area path. -/
def params_one_area : WIQLQueryParams :=
  { days_back := 60, excluded_states := [], area_paths :=
      ["Elo\\Meios de Pagamento e Anti Fraude\\Anti-Fraude\\Compra Online"],
    value_filters := [], keyword_filters := [], query := Option.none,
    allowed_fields := [("System.Id", "ID")] }

/-! Claim theorems. -/

set_option maxRecDepth 16384 in
/-- Claim C1 (code bug witness): with excluded_states supplied as
the singleton Foo list and no raw override, the built query does not contain
a NOT IN clause listing that state; it only contains the hardcoded template
clause with the five closed states, and the result is unchanged when
excluded_states is emptied — the clause computed from the parameter is
discarded by the reassignment at line 227. -/
theorem build_query_discards_excluded_states_clause :
    ¬ containsSub (build_query params_foo_state sample_config params_foo_state.query)
        ("[System.State] NOT IN (" ++ quot1 ("Foo") ++ ")")
  ∧ containsSub (build_query params_foo_state sample_config params_foo_state.query)
        ("[System.State] NOT IN (" ++ template_excluded_states_text ++ ")")
  ∧ build_query params_foo_state sample_config params_foo_state.query
      = build_query { params_foo_state with excluded_states := [] } sample_config
          params_foo_state.query := by
  refine ⟨by decide, by decide, by decide⟩

set_option maxRecDepth 16384 in
/-- Claim C2 (code bug witness): with a single area path supplied and no raw
override, the built query contains no UNDER condition at all, and the result
is unchanged when area_paths is emptied — the computed area-path filter is
discarded by the reassignment at line 227. -/
theorem build_query_discards_area_path_clause :
    ¬ containsSub (build_query params_one_area sample_config params_one_area.query) ("UNDER")
  ∧ build_query params_one_area sample_config params_one_area.query
      = build_query { params_one_area with area_paths := [] } sample_config
          params_one_area.query := by
  refine ⟨by decide, by decide⟩

/-- Claim C3: a non-empty raw query override is returned verbatim by
build_query, whatever the other parameters are. -/
theorem build_query_raw_override_verbatim (params : WIQLQueryParams)
    (config : AzureDevOpsConfig) (s : String) (h : s ≠ "") :
    build_query params config (Option.some s) = s := by
  have hb : pyFalsyOptStr (Option.some s) = false := by
    simp [pyFalsyOptStr, h]
  simp [build_query, hb]

/-- Witness for C3 at a concrete override and concrete other parameters. -/
theorem build_query_raw_override_verbatim_witness :
    ("SELECT [System.Id] FROM workitems" ≠ "")
  ∧ build_query params_foo_state sample_config
      (Option.some ("SELECT [System.Id] FROM workitems"))
      = "SELECT [System.Id] FROM workitems" :=
  ⟨by decide,
   build_query_raw_override_verbatim params_foo_state sample_config
     ("SELECT [System.Id] FROM workitems") (by decide)⟩

/-- Claim C6: when the remote WIQL query execution raises, get_work_items
returns the empty list (the exception is swallowed, not propagated). -/
theorem get_work_items_query_error_empty (params : WIQLQueryParams) (msg : String)
    (fetchBatch : List Int → List WorkItem) :
    get_work_items params (Except.error msg) fetchBatch = [] := rfl

set_option maxRecDepth 16384 in
/-- Claim C7: projecting a System.Description field holding the markup
fragment with a p element and an amp entity yields exactly the plain text
with the markup stripped and the entity unescaped. -/
theorem description_projection_strips_html :
    work_item_column
      ⟨[("System.Description", PyValue.str "<p>Fraude &amp; risco</p>")]⟩
      ("System.Description")
      = "Fraude & risco" := by decide

/-- Claim C9 (code bug witness): on a REST status of 200 with a JSON body
carrying the created id and url, create_work_item returns empty strings for
both (getattr on the parsed dict always yields the default), and a 204
response — a 2xx status — raises instead of returning normally. -/
theorem create_work_item_divergence :
    create_work_item_response 200
        [("id", PyValue.str "123"), ("url", PyValue.str "https://dev.azure.com/x")]
      = Except.ok (PyValue.str "", PyValue.str "")
  ∧ create_work_item_response 204 [("id", PyValue.str "123")]
      = Except.error ("Failed to create work item") := by
  refine ⟨rfl, rfl⟩

/-- Claim C4: the fetcher's slicing partitions the id list in order into
consecutive batches of at most 199 ids (their concatenation is the original
list), and a 250-id list yields exactly two batches of 199 and 51 ids.  One
`client.get_work_items(batch_ids, expand=all)` call is issued per slice by
definition of `get_work_items`. -/
theorem get_work_items_batch_partition (ids : List Int) :
    (batch_slices ids).flatten = ids
  ∧ (∀ b ∈ batch_slices ids, b.length ≤ 199)
  ∧ (ids.length = 250 → (batch_slices ids).map List.length = [199, 51]) := by
  refine ⟨batch_slices_flatten_aux ids.length ids (Nat.le_refl _), ?_, ?_⟩
  · intro b hb
    exact batch_slices_length_le_aux ids.length ids (Nat.le_refl _) b hb
  · intro h250
    have hne : ids ≠ [] := by intro h; rw [h] at h250; simp at h250
    have hdl : (ids.drop batch_size).length = 51 := by
      simp only [List.length_drop, h250, batch_size]
    have hdne : ids.drop batch_size ≠ [] := by
      intro h; rw [h] at hdl; simp at hdl
    rw [batch_slices_unfold, if_neg hne,
      batch_slices_small (ids.drop batch_size) hdne (by rw [hdl]; simp [batch_size])]
    simp only [List.map_cons, List.map_nil, List.length_take, List.length_drop, h250,
      batch_size]
    decide

/-- The 250-element id list 0..249 used as the concrete batching witness. -/
def ids_250 : List Int := (List.range 250).map Int.ofNat

/-- Witness for C4: the concrete 250-id list is split into two slices of
199 and 51 ids whose concatenation is the original list. -/
theorem get_work_items_batch_partition_witness :
    (batch_slices ids_250).flatten = ids_250
  ∧ (batch_slices ids_250).map List.length = [199, 51]
  ∧ (ids_250.take batch_size).length ≤ 199 := by
  have h250 : ids_250.length = 250 := by simp [ids_250]
  have hne : ids_250 ≠ [] := by intro h; rw [h] at h250; simp at h250
  refine ⟨(get_work_items_batch_partition ids_250).1,
          (get_work_items_batch_partition ids_250).2.2 h250, ?_⟩
  refine (get_work_items_batch_partition ids_250).2.1 (ids_250.take batch_size) ?_
  rw [batch_slices_unfold, if_neg hne]
  exact List.mem_cons_self _ _

/-- Inserting into a sorted list grows the length by one. -/
theorem insertSorted_length (x : String) (l : List String) :
    (insertSorted x l).length = l.length + 1 := by
  induction l with
  | nil => rfl
  | cons y ys ih =>
      simp only [insertSorted]
      split
      · simp
      · simp [ih]

/-- `pySorted` preserves length, as Python sorted does. -/
theorem pySorted_length (l : List String) : (pySorted l).length = l.length := by
  induction l with
  | nil => rfl
  | cons x xs ih =>
      simp only [pySorted, List.foldr_cons] at ih ⊢
      rw [insertSorted_length, ih]
      rfl

/-- A projected row has one column per field name. -/
theorem build_work_item_length (wi : WorkItem) (sf : List String) :
    (build_work_item wi sf).length = sf.length := by
  simp [build_work_item]

/-- Every row produced by `get_work_items` is the projection of some fetched
record over the sorted allowed-field names. -/
theorem get_work_items_rows (params : WIQLQueryParams)
    (qe : Except String WorkItemQueryResult) (fb : List Int → List WorkItem) :
    ∀ row ∈ get_work_items params qe fb,
      ∃ wi : WorkItem,
        row = build_work_item wi (pySorted (params.allowed_fields.map Prod.fst)) := by
  intro row hrow
  simp only [get_work_items] at hrow
  split at hrow
  · simp at hrow
  · split at hrow
    · simp at hrow
    · split at hrow
      · simp at hrow
      · rw [List.mem_flatten] at hrow
        obtain ⟨s, hs, hrs⟩ := hrow
        rw [List.mem_map] at hs
        obtain ⟨b, _, rfl⟩ := hs
        rw [List.mem_filter] at hrs
        obtain ⟨hm, _⟩ := hrs
        obtain ⟨wi, _, rfl⟩ := List.mem_map.mp hm
        exact ⟨wi, rfl⟩

/-- Claim C5: the response header has one title per configured allowed
field, and every returned row has the same length as the header — both
equal the count of allowed fields — each row being the projection of a
fetched record over the same sorted field ordering the header uses. -/
theorem azure_board_query_header_values_aligned (rp : WIQLQueryParams)
    (es : List String) (db : Int) (qe : Except String WorkItemQueryResult)
    (fb : List Int → List WorkItem) :
    (azure_board_query rp es db qe fb).1.length
        = (effective_allowed_fields rp.allowed_fields).length
  ∧ ∀ row ∈ (azure_board_query rp es db qe fb).2,
      row.length = (effective_allowed_fields rp.allowed_fields).length
      ∧ ∃ wi : WorkItem,
          row = build_work_item wi
            (pySorted ((effective_allowed_fields rp.allowed_fields).map Prod.fst)) := by
  constructor
  · simp [azure_board_query, pySorted_length]
  · intro row hrow
    have h2 : (azure_board_query rp es db qe fb).2
        = get_work_items
            { days_back := db, excluded_states := es, area_paths := rp.area_paths,
              value_filters := rp.value_filters, keyword_filters := rp.keyword_filters,
              query := rp.query,
              allowed_fields := effective_allowed_fields rp.allowed_fields }
            qe fb := rfl
    rw [h2] at hrow
    obtain ⟨wi, hwi⟩ := get_work_items_rows _ qe fb row hrow
    refine ⟨?_, wi, hwi⟩
    rw [hwi, build_work_item_length, pySorted_length, List.length_map]

/-- Concrete request parameters for the alignment witness. -/
def w5_params : WIQLQueryParams :=
  { days_back := 60, excluded_states := [], area_paths := [], value_filters := [],
    keyword_filters := [], query := Option.none,
    allowed_fields := [("System.Id", "ID")] }

/-- Concrete remote query outcome: one work item with id 1. -/
def w5_qe : Except String WorkItemQueryResult :=
  Except.ok { work_items := Option.some [⟨1⟩], work_item_relations := Option.none }

/-- Concrete batch fetch: each id yields a record with that id. -/
def w5_fb : List Int → List WorkItem :=
  fun ids => ids.map (fun i => ⟨[("System.Id", PyValue.int i)]⟩)

/-- The concrete response rows of the alignment witness. -/
theorem w5_values_eq : (azure_board_query w5_params [] 60 w5_qe w5_fb).2 = [["1"]] := by
  have hbs : batch_slices [(1 : Int)] = [[(1 : Int)]] :=
    batch_slices_small [(1 : Int)] (by decide) (by decide)
  simp [azure_board_query, get_work_items, w5_params, w5_qe, w5_fb,
    effective_allowed_fields, hbs, build_work_item, work_item_column, pySorted,
    insertSorted, pyTruthy, pyStr]
  decide

/-- Witness for C5 at a concrete request: the header and the single
returned row both have the length of the configured allowed-field list, and
the row is a projection over the sorted field names. -/
theorem azure_board_query_header_values_aligned_witness :
    (azure_board_query w5_params [] 60 w5_qe w5_fb).1.length
        = (effective_allowed_fields w5_params.allowed_fields).length
  ∧ ((["1"] : List String).length = (effective_allowed_fields w5_params.allowed_fields).length
      ∧ ∃ wi : WorkItem,
          (["1"] : List String) = build_work_item wi
            (pySorted ((effective_allowed_fields w5_params.allowed_fields).map Prod.fst))) :=
  ⟨(azure_board_query_header_values_aligned w5_params [] 60 w5_qe w5_fb).1,
   (azure_board_query_header_values_aligned w5_params [] 60 w5_qe w5_fb).2
     (["1"]) (by rw [w5_values_eq]; exact List.mem_cons_self _ _)⟩

/-- Columns of a row are positionally aligned with the field names. -/
theorem build_work_item_getElem (wi : WorkItem) (sf : List String) (i : Nat) :
    (build_work_item wi sf)[i]? = (sf[i]?).map (work_item_column wi) := by
  simp [build_work_item]

/-- Claim C8: for the field name at any position of the sorted field list,
a missing or falsy value projects to the empty string, and a present,
truthy value of any field other than System.Description projects to its
direct str() form. -/
theorem build_work_item_column_projection (wi : WorkItem) (sf : List String)
    (i : Nat) (f : String) (hf : sf[i]? = Option.some f) :
    ((List.lookup f wi.fields = Option.none
        ∨ ∃ v, List.lookup f wi.fields = Option.some v ∧ pyTruthy v = false) →
      (build_work_item wi sf)[i]? = Option.some "")
  ∧ (∀ v, List.lookup f wi.fields = Option.some v → pyTruthy v = true →
      f ≠ "System.Description" →
      (build_work_item wi sf)[i]? = Option.some (pyStr v)) := by
  constructor
  · intro h
    rw [build_work_item_getElem, hf]
    rcases h with h | ⟨v, hv, ht⟩
    · simp [work_item_column, h]
    · simp [work_item_column, hv, ht]
  · intro v hv ht hd
    rw [build_work_item_getElem, hf]
    simp [work_item_column, hv, ht, hd]

/-- Concrete record for the projection witness: a falsy id and a truthy
title. -/
def w8_item : WorkItem :=
  ⟨[("System.Id", PyValue.int 0), ("System.Title", PyValue.str "Hello")]⟩

/-- Concrete sorted field list for the projection witness. -/
def w8_fields : List String := ["System.Id", "System.Title"]

/-- Witness for C8: the falsy field projects to the empty string and the
truthy non-description field to its str() form. -/
theorem build_work_item_column_projection_witness :
    (build_work_item w8_item w8_fields)[0]? = Option.some ""
  ∧ (build_work_item w8_item w8_fields)[1]? = Option.some (pyStr (PyValue.str "Hello")) :=
  ⟨(build_work_item_column_projection w8_item w8_fields 0 ("System.Id") (by decide)).1
      (Or.inr ⟨PyValue.int 0, by decide, by decide⟩),
   (build_work_item_column_projection w8_item w8_fields 1 ("System.Title") (by decide)).2
      (PyValue.str "Hello") (by decide) (by decide) (by decide)⟩

set_option maxRecDepth 16384 in
/-- Claim C10: without a raw override, the built query always contains the
template's hardcoded work-item-type list, created-date window and excluded
state list, and the days_back parameter has no effect on the result. -/
theorem build_query_fixed_template_constraints (params : WIQLQueryParams)
    (config : AzureDevOpsConfig) (h : pyFalsyOptStr params.query = true) :
    containsSub (build_query params config params.query)
        ("[System.WorkItemType] IN (" ++ quot1 ("Iniciativa E2E") ++ ")")
  ∧ containsSub (build_query params config params.query)
        ("[System.CreatedDate] >= @Today - 30")
  ∧ containsSub (build_query params config params.query)
        ("[System.State] NOT IN (" ++ template_excluded_states_text ++ ")")
  ∧ ∀ d : Int, build_query { params with days_back := d } config params.query
      = build_query params config params.query := by
  refine ⟨?_, ?_, ?_, ?_⟩
  · simp only [build_query, h, if_true]
    exact containsSub_of_mid _ _ _ _ _ (by decide)
  · simp only [build_query, h, if_true]
    exact containsSub_of_mid _ _ _ _ _ (by decide)
  · simp only [build_query, h, if_true]
    exact containsSub_of_mid _ _ _ _ _ (by decide)
  · intro d
    simp [build_query]

/-- Concrete parameters without an override for the template witness. -/
def w10_params : WIQLQueryParams :=
  { days_back := 60, excluded_states := ["Completed"], area_paths := [],
    value_filters := [("System.State", ["Active", "New"])],
    keyword_filters := [("System.Title", "fraude")], query := Option.none,
    allowed_fields := [("System.Id", "ID"), ("System.Title", "Title")] }

/-- Witness for C10 at concrete parameters with value and keyword filters. -/
theorem build_query_fixed_template_constraints_witness :
    pyFalsyOptStr w10_params.query = true
  ∧ containsSub (build_query w10_params sample_config w10_params.query)
      ("[System.WorkItemType] IN (" ++ quot1 ("Iniciativa E2E") ++ ")")
  ∧ containsSub (build_query w10_params sample_config w10_params.query)
      ("[System.CreatedDate] >= @Today - 30")
  ∧ containsSub (build_query w10_params sample_config w10_params.query)
      ("[System.State] NOT IN (" ++ template_excluded_states_text ++ ")")
  ∧ build_query { w10_params with days_back := 0 } sample_config w10_params.query
      = build_query w10_params sample_config w10_params.query :=
  ⟨by decide,
   (build_query_fixed_template_constraints w10_params sample_config (by decide)).1,
   (build_query_fixed_template_constraints w10_params sample_config (by decide)).2.1,
   (build_query_fixed_template_constraints w10_params sample_config (by decide)).2.2.1,
   (build_query_fixed_template_constraints w10_params sample_config (by decide)).2.2.2 0⟩

end AzureBoardsQuery
